import Mathlib

/-
Verification of the claim-indexing core of the lbryumx block processor
(lbryumx/block_processor.py), as a shallow embedding in Lean 4.

Modelling conventions:
* Byte strings are `List Nat` (`Bytes`); machine integers are `Nat`.
* Python dicts are association lists `List (κ × α)`; assignment replaces
  in place or appends (`dinsert`), `dict.get` is `dlookup`, `dict.pop`
  is `dlookup`/`derase`.
* The write-back caches store `Option` values: `some v` is a staged write
  and `none` is the staged-deletion sentinel, exactly like the Python
  caches whose entries may be `None`.
* Python truthiness of byte strings (empty is falsy) is modelled
  explicitly where the source relies on it (`x or y`, `if x:`).
* External collaborators (URI parser, protobuf decoding, signature
  validation, address derivation, SHA-256, RIPEMD-160) are out of scope
  per the specification and enter as oracle functions in `Env`.
* Fallible code (Python exceptions) returns `Option` or `Except String`.
-/

abbrev Bytes := List Nat

/-- First-match lookup in an association list (Python `dict.get` /
`dict[k]` on a dict, which has unique keys). -/
def dlookup {κ α : Type} [DecidableEq κ] (m : List (κ × α)) (k : κ) : Option α :=
  match m with
  | [] => none
  | (k', v') :: rest => if k' = k then some v' else dlookup rest k

/-- Python dict assignment `m[k] = v`: replace in place if the key is
present, append otherwise. -/
def dinsert {κ α : Type} [DecidableEq κ] (m : List (κ × α)) (k : κ) (v : α) : List (κ × α) :=
  match m with
  | [] => [(k, v)]
  | (k', v') :: rest => if k' = k then (k, v) :: rest else (k', v') :: dinsert rest k v

/-- Python `dict.pop(k)` removal part: drop the (unique) entry for `k`. -/
def derase {κ α : Type} [DecidableEq κ] (m : List (κ × α)) (k : κ) : List (κ × α) :=
  match m with
  | [] => []
  | (k', v') :: rest => if k' = k then rest else (k', v') :: derase rest k

/-- Python `list.remove(x)`: drop the first occurrence, no-op when absent
(the source guards with `if x in l:` first, which has the same effect). -/
def removeFirst (l : List Bytes) (x : Bytes) : List Bytes :=
  match l with
  | [] => []
  | y :: rest => if y = x then rest else y :: removeFirst rest x

/-- Python `d.setdefault(k, []).append(v)`. -/
def dappend {κ α : Type} [DecidableEq κ] (m : List (κ × List α)) (k : κ) (v : α) :
    List (κ × List α) :=
  match dlookup m k with
  | some l => dinsert m k (l ++ [v])
  | none => m ++ [(k, [v])]

/-- `struct.pack('>I', n)`: big-endian 32-bit encoding (the source always
passes values below 2^32; we reduce modulo 256 per byte). -/
def pack32 (n : Nat) : Bytes :=
  [n / 2 ^ 24 % 256, n / 2 ^ 16 % 256, n / 2 ^ 8 % 256, n % 256]

/-- The `ClaimInfo` record of lbryumx/model.py (absent from src/; field
list taken from every construction site in block_processor.py:
`ClaimInfo(name, value, txid, nout, amount, address, height, cert_id)`). -/
structure ClaimInfo where
  name : Bytes
  value : Bytes
  txid : Bytes
  nout : Nat
  amount : Nat
  address : Bytes
  height : Nat
  cert_id : Option Bytes
  deriving DecidableEq, Repr

/-- Length prefix for one serialized field. -/
def lpre (x : Bytes) : Bytes := x.length :: x

/-- Length prefix for an optional field (`0` tags absence). -/
def lpreOpt : Option Bytes → Bytes
  | none => [0]
  | some x => (x.length + 1) :: x

/-- Modelled from the spec: `ClaimInfo.serialized` of lbryumx/model.py is
absent from src/; the spec asks for a stable self-delimiting
concatenation of the eight fields (§6 "Value encodings"), any stable
round-tripping choice being acceptable.  Numeric fields are kept as
single naturals. -/
def ClaimInfo.serialized (c : ClaimInfo) : Bytes :=
  lpre c.name ++ lpre c.value ++ lpre c.txid ++ [c.nout, c.amount] ++ lpre c.address ++
    [c.height] ++ lpreOpt c.cert_id

/-- Read one length-prefixed field. -/
def readLP (b : Bytes) : Option (Bytes × Bytes) :=
  match b with
  | [] => none
  | n :: rest => if rest.length < n then none else some (rest.take n, rest.drop n)

/-- Read one numeric field. -/
def readNat (b : Bytes) : Option (Nat × Bytes) :=
  match b with
  | [] => none
  | n :: rest => some (n, rest)

/-- Read one optional length-prefixed field. -/
def readOptB (b : Bytes) : Option (Option Bytes × Bytes) :=
  match b with
  | [] => none
  | 0 :: rest => some (none, rest)
  | (n + 1) :: rest => if rest.length < n then none else some (some (rest.take n), rest.drop n)

/-- Modelled from the spec: `ClaimInfo.from_serialized` of
lbryumx/model.py (absent from src/), the inverse of
`ClaimInfo.serialized`. -/
def ClaimInfo.from_serialized (b : Bytes) : Option ClaimInfo := do
  let (name, b) ← readLP b
  let (value, b) ← readLP b
  let (txid, b) ← readLP b
  let (nout, b) ← readNat b
  let (amount, b) ← readNat b
  let (address, b) ← readLP b
  let (height, b) ← readNat b
  let (cert_id, _) ← readOptB b
  pure ⟨name, value, txid, nout, amount, address, height, cert_id⟩

/-- The claim payload attached to a transaction output
(lbryumx/model.py types `NameClaim`, `ClaimUpdate`, `ClaimSupport`;
field lists taken from their uses in block_processor.py). -/
inductive ClaimPayload where
  | nameClaim (name value : Bytes)
  | claimUpdate (name value claim_id : Bytes)
  | claimSupport (name claim_id : Bytes)
  | noClaim
  deriving DecidableEq, Repr

structure TxInput where
  prev_hash : Bytes
  prev_idx : Nat
  deriving DecidableEq, Repr

structure TxOutput where
  value : Nat
  pk_script : Bytes
  claim : ClaimPayload
  deriving DecidableEq, Repr

/-- One undo-journal record: `(claim_id, prior ClaimInfo or None)`. -/
abbrev UndoRecord := Bytes × Option ClaimInfo

/-- The claim-side state of `LBRYBlockProcessor`: the four write-back
caches, the five on-disk stores they mirror plus the undo store, and the
pending-abandon map.  Cache values are `Option` (`none` is the staged
deletion sentinel, i.e. a Python `None` entry).  The `names`,
`signatures` and `claim_undo` stores hold their msgpack-decoded contents
directly (msgpack is an out-of-scope external codec; it is injective and
always produces non-empty byte strings, so truthiness of a stored blob
coincides with presence). -/
structure State where
  claim_cache : List (Bytes × Option Bytes)
  claims_for_name_cache : List (Bytes × List (Bytes × Nat))
  claims_signed_by_cert_cache : List (Bytes × List Bytes)
  outpoint_to_claim_id_cache : List (Bytes × Option Bytes)
  claims_db : List (Bytes × Bytes)
  names_db : List (Bytes × List (Bytes × Nat))
  signatures_db : List (Bytes × List Bytes)
  outpoint_to_claim_id_db : List (Bytes × Bytes)
  claim_undo_db : List (Bytes × List UndoRecord)
  pending_abandons : List (Bytes × List (Bytes × Nat))
  deriving DecidableEq, Repr

def emptyState : State := ⟨[], [], [], [], [], [], [], [], [], []⟩

/-- Oracles for the out-of-scope collaborators used by the block
processor, plus the `VALIDATE_CLAIM_SIGNATURES` flag.
`parse_uri_ok` is `parse_lbry_uri` succeeding; `extract_cert_id` is
`Claim.FromString(value).publisherSignature.certificateId[::-1]`
(`none` when protobuf parsing raises; the source's trailing `or None`,
which maps an empty reference to `None` as well, is applied at the use
site in `checksig`);
`smart_decode_ok` is `smart_decode` succeeding; `validate_sig address
cert_value claim_value` is `validate_signature` not raising. -/
structure Env where
  should_validate_signatures : Bool
  parse_uri_ok : Bytes → Bool
  extract_cert_id : Bytes → Option Bytes
  smart_decode_ok : Bytes → Bool
  validate_sig : Bytes → Bytes → Bytes → Bool
  address_from_script : Bytes → Bytes
  sha256 : Bytes → Bytes
  ripemd160 : Bytes → Bytes

/-- Python `cache.get(k)` on a cache whose stored values may themselves
be `None`: a missing key and a stored `None` both come back as `None`. -/
def pyGetD (m : List (Bytes × Option Bytes)) (k : Bytes) : Option Bytes :=
  (dlookup m k).bind id

/-- Python `a or b` on optional byte strings: `a` wins iff it is truthy
(present and non-empty). -/
def bytesOr (a b : Option Bytes) : Option Bytes :=
  match a with
  | some v => if v = [] then b else some v
  | none => b

/-- `claim_id_hash` (block_processor.py:354):
RIPEMD160(SHA256(txid ++ u32_be(n))). -/
def claim_id_hash (sha256 ripemd160 : Bytes → Bytes) (txid : Bytes) (n : Nat) : Bytes :=
  ripemd160 (sha256 (txid ++ pack32 n))

/-- `put_claim_id_for_outpoint` (block_processor.py:291): stage
`outpoint_to_claim_id_cache[txid ++ u32_be(idx)] = claim_id`, where
`claim_id` may be the `None` sentinel (the source passes `None` when a
prior outpoint is released). -/
def put_claim_id_for_outpoint (s : State) (tx_hash : Bytes) (tx_idx : Nat)
    (claim_id : Option Bytes) : State :=
  { s with outpoint_to_claim_id_cache :=
      dinsert s.outpoint_to_claim_id_cache (tx_hash ++ pack32 tx_idx) claim_id }

/-- `remove_claim_id_for_outpoint` (block_processor.py:296): stage the
deletion sentinel for the outpoint. -/
def remove_claim_id_for_outpoint (s : State) (tx_hash : Bytes) (tx_idx : Nat) : State :=
  { s with outpoint_to_claim_id_cache :=
      dinsert s.outpoint_to_claim_id_cache (tx_hash ++ pack32 tx_idx) none }

/-- `get_claim_id_from_outpoint` (block_processor.py:300):
`cache.get(key) or db.get(key)`. -/
def get_claim_id_from_outpoint (s : State) (tx_hash : Bytes) (tx_idx : Nat) : Option Bytes :=
  let key := tx_hash ++ pack32 tx_idx
  bytesOr (pyGetD s.outpoint_to_claim_id_cache key)
    (dlookup s.outpoint_to_claim_id_db key)

/-- `get_claims_for_name` (block_processor.py:304): if the name is a key
of the cache return the cached map (even when it is the empty map, the
deletion sentinel of this cache); otherwise read and decode the store,
defaulting to the empty map. -/
def get_claims_for_name (s : State) (name : Bytes) : List (Bytes × Nat) :=
  match dlookup s.claims_for_name_cache name with
  | some claims => claims
  | none =>
    match dlookup s.names_db name with
    | some db_claims => db_claims
    | none => []

/-- `max(claims.values() or [0])`: over naturals, the fold with base 0
agrees with Python's max over the value list (or 0 when empty). -/
def maxValues (m : List (Bytes × Nat)) : Nat :=
  m.foldl (fun acc p => max acc p.2) 0

/-- `put_claim_for_name` (block_processor.py:309): `setdefault` the
claim id at sequence `max(values)+1`, restage the map. -/
def put_claim_for_name (s : State) (name claim_id : Bytes) : State :=
  let claims := get_claims_for_name s name
  let claims :=
    match dlookup claims claim_id with
    | some _ => claims
    | none => claims ++ [(claim_id, maxValues claims + 1)]
  { s with claims_for_name_cache := dinsert s.claims_for_name_cache name claims }

/-- `remove_claim_for_name` (block_processor.py:315): pop the claim
(KeyError — `none` — when it is absent), decrement every sequence
greater than the popped one, restage the map. -/
def remove_claim_for_name (s : State) (name claim_id : Bytes) : Option State :=
  let claims := get_claims_for_name s name
  match dlookup claims claim_id with
  | none => none
  | some claim_n =>
    let claims := (derase claims claim_id).map
      (fun p => if p.2 > claim_n then (p.1, p.2 - 1) else p)
    some { s with claims_for_name_cache := dinsert s.claims_for_name_cache name claims }

/-- `get_signed_claim_ids_by_cert_id` (block_processor.py:324): cached
list if the cert id is a cache key (even the empty list), else the
decoded store value, defaulting to the empty list. -/
def get_signed_claim_ids_by_cert_id (s : State) (cert_id : Bytes) : List Bytes :=
  match dlookup s.claims_signed_by_cert_cache cert_id with
  | some certs => certs
  | none =>
    match dlookup s.signatures_db cert_id with
    | some db_claims => db_claims
    | none => []

/-- `put_claim_id_signed_by_cert_id` (block_processor.py:329). -/
def put_claim_id_signed_by_cert_id (s : State) (cert_id claim_id : Bytes) : State :=
  let certs := get_signed_claim_ids_by_cert_id s cert_id
  { s with claims_signed_by_cert_cache :=
      dinsert s.claims_signed_by_cert_cache cert_id (certs ++ [claim_id]) }

/-- `remove_certificate` (block_processor.py:335): stage the empty list. -/
def remove_certificate (s : State) (cert_id : Bytes) : State :=
  { s with claims_signed_by_cert_cache :=
      dinsert s.claims_signed_by_cert_cache cert_id [] }

/-- `remove_claim_from_certificate_claims` (block_processor.py:339). -/
def remove_claim_from_certificate_claims (s : State) (cert_id claim_id : Bytes) : State :=
  let certs := get_signed_claim_ids_by_cert_id s cert_id
  { s with claims_signed_by_cert_cache :=
      dinsert s.claims_signed_by_cert_cache cert_id (removeFirst certs claim_id) }

/-- `get_claim_info` (block_processor.py:346):
`serialized = cache.get(claim_id) or db.get(claim_id)`, then decode if
truthy. -/
def get_claim_info (s : State) (claim_id : Bytes) : Option ClaimInfo :=
  match bytesOr (pyGetD s.claim_cache claim_id) (dlookup s.claims_db claim_id) with
  | some serialized => if serialized = [] then none else ClaimInfo.from_serialized serialized
  | none => none

/-- `put_claim_info` (block_processor.py:350): stage the serialized
record. -/
def put_claim_info (s : State) (claim_id : Bytes) (claim_info : ClaimInfo) : State :=
  { s with claim_cache := dinsert s.claim_cache claim_id (some claim_info.serialized) }

/-- `abandon_spent` (block_processor.py:284): look the outpoint up; when
a truthy claim id is found, enqueue the outpoint under it in
`pending_abandons` and return it. -/
def abandon_spent (s : State) (tx_hash : Bytes) (tx_idx : Nat) : State × Option Bytes :=
  match get_claim_id_from_outpoint s tx_hash tx_idx with
  | some claim_id =>
    if claim_id = [] then (s, none)
    else ({ s with pending_abandons := dappend s.pending_abandons claim_id (tx_hash, tx_idx) },
          some claim_id)
  | none => (s, none)

/-- `_checksig` (block_processor.py:258).  Any raising step (URI parse,
protobuf decode, certificate decode, signature validation) falls into
the `except` clause, which returns `None`; so does falling off the end
of the function. -/
def checksig (env : Env) (s : State) (name value address : Bytes) : Option Bytes :=
  if env.parse_uri_ok name = false then none
  else
    match (env.extract_cert_id value).bind (fun v => if v = [] then none else some v) with
    | none => none
    | some cert_id =>
      if env.should_validate_signatures = false then some cert_id
      else
        match get_claim_info s cert_id with
        | none => none
        | some cert_claim =>
          if env.smart_decode_ok cert_claim.value && env.smart_decode_ok value &&
              env.validate_sig address cert_claim.value value
          then some cert_id else none

/-- `claim_info_from_output` (block_processor.py:250): derive the
address, check `assert txid and address` (truthiness of the byte
strings), run `_checksig`, build the record.  Only name-claim and
claim-update payloads carry `name` and `value`. -/
def claim_info_from_output (env : Env) (s : State) (output : TxOutput) (txid : Bytes)
    (nout height : Nat) : Option ClaimInfo :=
  let amount := output.value
  let address := env.address_from_script output.pk_script
  match output.claim with
  | .nameClaim name value | .claimUpdate name value _ =>
    if txid = [] ∨ address = [] then none
    else some ⟨name, value, txid, nout, amount, address, height,
               checksig env s name value address⟩
  | _ => none

/-- `get_update_input` (block_processor.py:274): `False` (here `none`)
when the referenced claim is unknown, else the first input spending the
claim's current outpoint (`none` when there is none). -/
def get_update_input (s : State) (claim_id : Bytes) (inputs : List TxInput) : Option TxInput :=
  match get_claim_info s claim_id with
  | none => none
  | some claim_info =>
    inputs.find? (fun i => decide (i.prev_hash = claim_info.txid ∧ i.prev_idx = claim_info.nout))

/-- `advance_update_claim` (block_processor.py:169): build the new
record, fetch the old one (`none` models the AttributeError a missing
claim would raise — the caller has just checked it exists via
`get_update_input`), release the old outpoint with the deletion
sentinel, move the certificate link, store the new record, point the new
outpoint at the claim, and return the undo pair `(claim_id, old)`.
Certificate guards follow Python truthiness (`if x.cert_id:`). -/
def advance_update_claim (env : Env) (s : State) (output : TxOutput) (height : Nat)
    (txid : Bytes) (nout : Nat) : Option (State × UndoRecord) :=
  match output.claim with
  | .claimUpdate _ _ claim_id =>
    match claim_info_from_output env s output txid nout height with
    | none => none
    | some claim_info =>
      match get_claim_info s claim_id with
      | none => none
      | some old_claim_info =>
        let s := put_claim_id_for_outpoint s old_claim_info.txid old_claim_info.nout none
        let s := match old_claim_info.cert_id with
          | some cid => if cid = [] then s else remove_claim_from_certificate_claims s cid claim_id
          | none => s
        let s := match claim_info.cert_id with
          | some cid => if cid = [] then s else put_claim_id_signed_by_cert_id s cid claim_id
          | none => s
        let s := put_claim_info s claim_id claim_info
        let s := put_claim_id_for_outpoint s txid nout (some claim_id)
        some (s, (claim_id, some old_claim_info))
  | _ => none

/-- `advance_claim_name_transaction` (block_processor.py:182): derive
the claim id from the outpoint, build the record, link the certificate,
store the record, append to the name index, point the outpoint at the
claim, and return the undo pair `(claim_id, None)`. -/
def advance_claim_name_transaction (env : Env) (s : State) (output : TxOutput) (height : Nat)
    (txid : Bytes) (nout : Nat) : Option (State × UndoRecord) :=
  let claim_id := claim_id_hash env.sha256 env.ripemd160 txid nout
  match claim_info_from_output env s output txid nout height with
  | none => none
  | some claim_info =>
    let s := match claim_info.cert_id with
      | some cid => if cid = [] then s else put_claim_id_signed_by_cert_id s cid claim_id
      | none => s
    let s := put_claim_info s claim_id claim_info
    let s := put_claim_for_name s claim_info.name claim_id
    let s := put_claim_id_for_outpoint s txid nout (some claim_id)
    some (s, (claim_id, none))

/-- `advance_support` (block_processor.py:246): the body of the source
function is `pass` (a TODO stub) — the state is returned unchanged. -/
def advance_support (s : State) (_claim_support : ClaimPayload) (_txid : Bytes)
    (_nout _height _amount : Nat) : State :=
  s

/-- The per-output dispatch of `advance_claim_txs`
(block_processor.py:148-161): classify the output's payload, apply the
name-claim / update / support rule, and thread the undo list and the set
of inputs consumed by accepted updates.  A rejected update (no live
prior outpoint among the tx's inputs) only logs and changes nothing. -/
def advance_output (env : Env) (s : State) (undo : List UndoRecord)
    (update_inputs : List TxInput) (tx_inputs : List TxInput) (txid : Bytes) (index : Nat)
    (output : TxOutput) (height : Nat) : Option (State × List UndoRecord × List TxInput) :=
  match output.claim with
  | .nameClaim _ _ =>
    (advance_claim_name_transaction env s output height txid index).map
      (fun p => (p.1, undo ++ [p.2], update_inputs))
  | .claimUpdate _ _ claim_id =>
    match get_update_input s claim_id tx_inputs with
    | some update_input =>
      (advance_update_claim env s output height txid index).map
        (fun p => (p.1, undo ++ [p.2], update_inputs ++ [update_input]))
    | none => some (s, undo, update_inputs)
  | .claimSupport _ _ => some (advance_support s output.claim txid index height output.value,
                               undo, update_inputs)
  | .noClaim => some (s, undo, update_inputs)

def inconsistencyMessage : String :=
  "Unexpected situation occurred on backup, this means the database is inconsistent. Please report. Resetting the data folder (reindex) solves it for now."

/-- `backup_from_undo_info` (block_processor.py:192): classify by
(current claim known?, undo info present?); `(yes, yes)` was an update,
`(yes, no)` a fresh claim, `(no, yes)` an abandon, `(no, no)` raises the
database-inconsistency error.  When undo info is present the prior
record is restored.  A `None` result of the `_checksig` recomputation
would make `put_claim_id_signed_by_cert_id` crash on a `None` key in
Python; it is a distinct error here. -/
def backup_from_undo_info (env : Env) (s : State) (claim_id : Bytes)
    (undo_claim_info : Option ClaimInfo) : Except String State := do
  let current_claim_info := get_claim_info s claim_id
  let s ←
    match current_claim_info, undo_claim_info with
    | some cur, some _ =>
      let s := remove_claim_id_for_outpoint s cur.txid cur.nout
      pure (match cur.cert_id with
        | some cid => if cid = [] then s else remove_claim_from_certificate_claims s cid claim_id
        | none => s)
    | some cur, none => pure (abandon_spent s cur.txid cur.nout).1
    | none, some _ => pure s
    | none, none => throw inconsistencyMessage
  match undo_claim_info with
  | none => pure s
  | some undo =>
    let s := put_claim_info s claim_id undo
    let s ←
      match undo.cert_id with
      | some cid =>
        if cid = [] then pure s
        else
          match checksig env s undo.name undo.value undo.address with
          | some cert_id => pure (put_claim_id_signed_by_cert_id s cert_id claim_id)
          | none => throw "TypeError: cert_id is None"
      | none => pure s
    let s := put_claim_for_name s undo.name claim_id
    pure (put_claim_id_for_outpoint s undo.txid undo.nout (some claim_id))

/-- `backup_txs` (block_processor.py:227), claim side: load the undo
journal entry for the current height (`msgpack.loads(None)` raises when
it is missing) and replay its records in reverse.  The base indexer's
own `super().backup_txs` concerns only UTXO state and is out of scope. -/
def backup_txs (env : Env) (s : State) (height : Nat) : Except String State :=
  match dlookup s.claim_undo_db (pack32 height) with
  | none => Except.error "TypeError: a bytes-like object is required, not NoneType"
  | some undo_info =>
    undo_info.reverse.foldlM (fun st r => backup_from_undo_info env st r.1 r.2) s

theorem dlookup_dinsert_self {κ α : Type} [DecidableEq κ] (m : List (κ × α)) (k : κ) (v : α) :
    dlookup (dinsert m k v) k = some v := by
  induction m with
  | nil => simp [dlookup, dinsert]
  | cons p rest ih =>
    by_cases h : p.1 = k
    · simp [dlookup, dinsert, h]
    · simp [dlookup, dinsert, h, ih]

theorem dlookup_dinsert_ne {κ α : Type} [DecidableEq κ] (m : List (κ × α)) (k k' : κ) (v : α)
    (h : k' ≠ k) : dlookup (dinsert m k v) k' = dlookup m k' := by
  induction m with
  | nil => simp [dlookup, dinsert, Ne.symm h]
  | cons p rest ih =>
    by_cases hp : p.1 = k
    · simp [dlookup, dinsert, hp, Ne.symm h]
    · simp only [dinsert, if_neg hp, dlookup]
      by_cases hp' : p.1 = k' <;> simp [hp', ih]

theorem dlookup_map_snd {κ α β : Type} [DecidableEq κ] (m : List (κ × α)) (f : α → β) (k : κ) :
    dlookup (m.map (fun p => (p.1, f p.2))) k = (dlookup m k).map f := by
  induction m with
  | nil => simp [dlookup]
  | cons p rest ih =>
    by_cases h : p.1 = k <;> simp [dlookup, h, ih]

theorem dlookup_derase_ne {κ α : Type} [DecidableEq κ] (m : List (κ × α)) (k k' : κ)
    (h : k' ≠ k) : dlookup (derase m k) k' = dlookup m k' := by
  induction m with
  | nil => simp [derase]
  | cons p rest ih =>
    by_cases hp : p.1 = k
    · simp [derase, dlookup, hp, Ne.symm h]
    · simp only [derase, if_neg hp, dlookup]
      by_cases hp' : p.1 = k' <;> simp [hp', ih]

theorem dlookup_eq_none_of_not_mem_keys {κ α : Type} [DecidableEq κ] (m : List (κ × α))
    (k : κ) (h : k ∉ m.map Prod.fst) : dlookup m k = none := by
  induction m with
  | nil => simp [dlookup]
  | cons p rest ih =>
    simp only [List.map_cons, List.mem_cons] at h
    push_neg at h
    simp only [dlookup, if_neg (fun hh : p.1 = k => h.1 hh.symm)]
    exact ih h.2

theorem dlookup_derase_self {κ α : Type} [DecidableEq κ] (m : List (κ × α)) (k : κ)
    (h : (m.map Prod.fst).Nodup) : dlookup (derase m k) k = none := by
  induction m with
  | nil => simp [derase, dlookup]
  | cons p rest ih =>
    simp only [List.map_cons, List.nodup_cons] at h
    by_cases hp : p.1 = k
    · simp only [derase, if_pos hp]
      exact dlookup_eq_none_of_not_mem_keys rest k (hp ▸ h.1)
    · simp only [derase, if_neg hp, dlookup, if_neg hp]
      exact ih h.2

theorem readLP_lpre (x r : Bytes) : readLP (lpre x ++ r) = some (x, r) := by
  have h : ¬ (x ++ r).length < x.length := by
    simp only [List.length_append]
    omega
  simp [readLP, lpre, h, List.take_left, List.drop_left]

theorem readNat_cons (n : Nat) (r : Bytes) : readNat (n :: r) = some (n, r) := rfl

theorem readOptB_lpreOpt (o : Option Bytes) (r : Bytes) :
    readOptB (lpreOpt o ++ r) = some (o, r) := by
  cases o with
  | none => rfl
  | some x =>
    have h : ¬ (x ++ r).length < x.length := by
      simp only [List.length_append]
      omega
    simp [readOptB, lpreOpt, h, List.take_left, List.drop_left]

theorem from_serialized_serialized (c : ClaimInfo) :
    ClaimInfo.from_serialized c.serialized = some c := by
  obtain ⟨n, v, t, no, a, ad, h, ci⟩ := c
  have hr := readOptB_lpreOpt ci []
  rw [List.append_nil] at hr
  simp [ClaimInfo.from_serialized, ClaimInfo.serialized, List.append_assoc,
    readLP_lpre, readNat_cons, hr]

theorem serialized_ne_nil (c : ClaimInfo) : c.serialized ≠ [] := by
  simp [ClaimInfo.serialized, lpre]

theorem put_claim_id_for_outpoint_frame (s : State) (tx : Bytes) (i : Nat)
    (c : Option Bytes) :
    (put_claim_id_for_outpoint s tx i c).claim_undo_db = s.claim_undo_db ∧
    (put_claim_id_for_outpoint s tx i c).claims_for_name_cache = s.claims_for_name_cache ∧
    (put_claim_id_for_outpoint s tx i c).names_db = s.names_db ∧
    (put_claim_id_for_outpoint s tx i c).pending_abandons = s.pending_abandons :=
  ⟨rfl, rfl, rfl, rfl⟩

theorem remove_claim_id_for_outpoint_frame (s : State) (tx : Bytes) (i : Nat) :
    (remove_claim_id_for_outpoint s tx i).claim_undo_db = s.claim_undo_db :=
  rfl

theorem put_claim_id_signed_by_cert_id_frame (s : State) (cert_id claim_id : Bytes) :
    (put_claim_id_signed_by_cert_id s cert_id claim_id).claim_undo_db = s.claim_undo_db ∧
    (put_claim_id_signed_by_cert_id s cert_id claim_id).claims_for_name_cache =
      s.claims_for_name_cache ∧
    (put_claim_id_signed_by_cert_id s cert_id claim_id).names_db = s.names_db ∧
    (put_claim_id_signed_by_cert_id s cert_id claim_id).pending_abandons = s.pending_abandons :=
  ⟨rfl, rfl, rfl, rfl⟩

theorem remove_claim_from_certificate_claims_frame (s : State) (cert_id claim_id : Bytes) :
    (remove_claim_from_certificate_claims s cert_id claim_id).claim_undo_db = s.claim_undo_db ∧
    (remove_claim_from_certificate_claims s cert_id claim_id).claims_for_name_cache =
      s.claims_for_name_cache ∧
    (remove_claim_from_certificate_claims s cert_id claim_id).names_db = s.names_db ∧
    (remove_claim_from_certificate_claims s cert_id claim_id).pending_abandons =
      s.pending_abandons :=
  ⟨rfl, rfl, rfl, rfl⟩

theorem put_claim_info_frame (s : State) (claim_id : Bytes) (ci : ClaimInfo) :
    (put_claim_info s claim_id ci).claim_undo_db = s.claim_undo_db ∧
    (put_claim_info s claim_id ci).claims_for_name_cache = s.claims_for_name_cache ∧
    (put_claim_info s claim_id ci).names_db = s.names_db ∧
    (put_claim_info s claim_id ci).pending_abandons = s.pending_abandons :=
  ⟨rfl, rfl, rfl, rfl⟩

theorem put_claim_for_name_frame (s : State) (name claim_id : Bytes) :
    (put_claim_for_name s name claim_id).claim_undo_db = s.claim_undo_db :=
  rfl

theorem abandon_spent_frame (s : State) (tx : Bytes) (i : Nat) :
    ((abandon_spent s tx i).1).claim_undo_db = s.claim_undo_db := by
  unfold abandon_spent
  cases get_claim_id_from_outpoint s tx i with
  | none => rfl
  | some cid => by_cases h : cid = [] <;> simp [h]

theorem backup_from_undo_info_claim_undo_db (env : Env) (s : State) (claim_id : Bytes)
    (undo_claim_info : Option ClaimInfo) (s' : State)
    (h : backup_from_undo_info env s claim_id undo_claim_info = .ok s') :
    s'.claim_undo_db = s.claim_undo_db := by
  unfold backup_from_undo_info at h
  simp only [bind, Except.bind, pure, Except.pure, throw, throwThe,
    MonadExceptOf.throw] at h
  repeat' (first
    | split at h
    | simp only [bind, Except.bind, pure, Except.pure, throw, throwThe,
        MonadExceptOf.throw] at h)
  all_goals (try simp only [Except.ok.injEq] at h)
  all_goals (try exact absurd h (by simp))
  all_goals subst h
  all_goals simp [put_claim_id_for_outpoint, put_claim_for_name, put_claim_info,
    put_claim_id_signed_by_cert_id, remove_claim_id_for_outpoint,
    remove_claim_from_certificate_claims, abandon_spent_frame]

theorem foldlM_backup_claim_undo_db (env : Env) (l : List UndoRecord) (s s' : State)
    (h : l.foldlM (fun st r => backup_from_undo_info env st r.1 r.2) s = .ok s') :
    s'.claim_undo_db = s.claim_undo_db := by
  induction l generalizing s with
  | nil =>
    simp only [List.foldlM_nil, pure, Except.pure, Except.ok.injEq] at h
    subst h
    rfl
  | cons r rest ih =>
    simp only [List.foldlM_cons, bind, Except.bind] at h
    cases hr : backup_from_undo_info env s r.1 r.2 with
    | error e => simp [hr] at h
    | ok s1 =>
      simp only [hr] at h
      exact (ih s1 h).trans (backup_from_undo_info_claim_undo_db env s r.1 r.2 s1 hr)

/-- A concrete oracle environment for witnesses: no signature
validation, every URI parses, no certificate reference in any value. -/
def envT : Env :=
  ⟨false, fun _ => true, fun _ => none, fun _ => true, fun _ _ _ => true,
   fun _ => [9], fun b => 0 :: b, fun b => 1 :: b⟩

/-- A concrete oracle environment with signature validation on and every
value carrying certificate reference `[8]`. -/
def envV : Env :=
  ⟨true, fun _ => true, fun _ => some [8], fun _ => true, fun _ _ _ => true,
   fun _ => [9], fun b => 0 :: b, fun b => 1 :: b⟩

/-- C7: for an undo record whose claim id has no current `ClaimInfo` and
whose prior is null — the (no, no) case — the rollback engine raises the
fatal database-inconsistency error telling the operator to rebuild the
index, instead of continuing. -/
theorem claim7_no_no_case_fails_fast (env : Env) (s : State) (claim_id : Bytes)
    (h : get_claim_info s claim_id = none) :
    backup_from_undo_info env s claim_id none = .error inconsistencyMessage := by
  unfold backup_from_undo_info
  simp [h, bind, Except.bind, throw, throwThe, MonadExceptOf.throw]

theorem claim7_witness :
    backup_from_undo_info envT emptyState [1] none = .error inconsistencyMessage :=
  claim7_no_no_case_fails_fast envT emptyState [1] rfl

/-- A state whose claim-undo store has an (empty) journal entry for
height 5: rolling height 5 back succeeds and must, per the claim, delete
the entry. -/
def undoState : State := { emptyState with claim_undo_db := [(pack32 5, [])] }

/-- C5 counterexample: rolling back height 5 on `undoState` completes
successfully, yet the journal entry under `u32_be(5)` is still present
in the claim-undo store of the resulting state — `backup_txs` never
deletes it, contradicting the claim. -/
theorem claim5_counterexample :
    backup_txs envT undoState 5 = .ok undoState ∧
    dlookup undoState.claim_undo_db (pack32 5) ≠ none := by
  constructor
  · rfl
  · decide

/-- C5 (amended): a successful rollback of height `h` reads and replays
the journal entry but leaves the claim-undo store unchanged — in
particular the entry for `h` is not deleted (it is only overwritten when
the chain advances past `h` again). -/
theorem claim5_rollback_preserves_undo_store (env : Env) (s : State) (height : Nat)
    (s' : State) (h : backup_txs env s height = .ok s') :
    s'.claim_undo_db = s.claim_undo_db := by
  unfold backup_txs at h
  cases hl : dlookup s.claim_undo_db (pack32 height) with
  | none => simp [hl] at h
  | some undo_info =>
    simp only [hl] at h
    exact foldlM_backup_claim_undo_db env undo_info.reverse s s' h

/-- A prior claim record used by the C5 witness rollback. -/
def priorInfo : ClaimInfo := ⟨[110], [118], [3], 0, 10, [9], 1, none⟩

/-- A state whose journal entry for height 7 replays a real reclaim. -/
def undoState2 : State :=
  { emptyState with claim_undo_db := [(pack32 7, [([5], some priorInfo)])] }

theorem claim5_witness :
    (backup_txs envT undoState2 7).map State.claim_undo_db =
      .ok undoState2.claim_undo_db := by
  obtain ⟨s', hs⟩ : ∃ s', backup_txs envT undoState2 7 = .ok s' := ⟨_, rfl⟩
  rw [hs, Except.map,
    claim5_rollback_preserves_undo_store envT undoState2 7 s' hs]

/-- C4: a `ClaimUpdate` output whose referenced claim id has no live
prior outpoint among the transaction's inputs (`get_update_input`
returned falsy, because the claim is unknown or no input spends its
current outpoint) is dropped by the per-output dispatch: the state, the
undo list and the accepted-update input set come back unchanged — no
mutation and no undo entry (only a warning is logged). -/
theorem claim4_rejected_update_is_noop (env : Env) (s : State) (undo : List UndoRecord)
    (update_inputs tx_inputs : List TxInput) (txid : Bytes) (index : Nat)
    (output : TxOutput) (height : Nat) (name value claim_id : Bytes)
    (hout : output.claim = .claimUpdate name value claim_id)
    (hrej : get_update_input s claim_id tx_inputs = none) :
    advance_output env s undo update_inputs tx_inputs txid index output height =
      some (s, undo, update_inputs) := by
  unfold advance_output
  simp [hout, hrej]

theorem claim4_witness :
    advance_output envT emptyState [] [] [] [3] 0
      ⟨20, [], .claimUpdate [110] [118] [5]⟩ 4 = some (emptyState, [], []) :=
  claim4_rejected_update_is_noop envT emptyState [] [] [] [3] 0
    ⟨20, [], .claimUpdate [110] [118] [5]⟩ 4 [110] [118] [5] rfl rfl

/-- C9: an accepted `ClaimUpdate` leaves the name index alone — both the
`claims_for_name` cache and the names store are untouched, so every
claim's sequence number under every name reads the same after the update
as before; the pending-abandon map and the undo store are also
untouched (the update mutates only the claim, outpoint and certificate
entries). -/
theorem claim9_update_preserves_name_index (env : Env) (s : State) (output : TxOutput)
    (height : Nat) (txid : Bytes) (nout : Nat) (s' : State) (u : UndoRecord)
    (h : advance_update_claim env s output height txid nout = some (s', u)) :
    (∀ name, get_claims_for_name s' name = get_claims_for_name s name) ∧
    s'.claims_for_name_cache = s.claims_for_name_cache ∧
    s'.names_db = s.names_db ∧
    s'.pending_abandons = s.pending_abandons ∧
    s'.claim_undo_db = s.claim_undo_db := by
  unfold advance_update_claim at h
  repeat' split at h
  all_goals
    try (simp only [Option.some.injEq, Prod.mk.injEq] at h
         obtain ⟨hs, -⟩ := h
         subst hs
         exact ⟨fun _ => rfl, rfl, rfl, rfl, rfl⟩)
  all_goals simp at h

/-- The pre-update claim record for the C9 witness: claim `[5]` lives at
outpoint `([2], 0)`. -/
def oldInfo : ClaimInfo := ⟨[110], [118], [2], 0, 5, [9], 1, none⟩

/-- A state holding `oldInfo` under claim id `[5]`. -/
def s9 : State := put_claim_info emptyState [5] oldInfo

/-- An update output for claim `[5]`. -/
def output9 : TxOutput := ⟨20, [], .claimUpdate [110] [118] [5]⟩

theorem claim9_witness :
    (advance_update_claim envT s9 output9 2 [3] 1).map
      (fun p => p.1.claims_for_name_cache) = some s9.claims_for_name_cache := by
  obtain ⟨⟨s', u⟩, hp⟩ : ∃ p, advance_update_claim envT s9 output9 2 [3] 1 = some p :=
    ⟨_, rfl⟩
  rw [hp, Option.map_some',
    (claim9_update_preserves_name_index envT s9 output9 2 [3] 1 s' u hp).2.1]

/-- The state after staging claims `[1]`, `[2]`, `[3]` under name
`[110]` in that order (sequences 1, 2, 3). -/
def s3 : State :=
  put_claim_for_name (put_claim_for_name (put_claim_for_name emptyState [110] [1])
    [110] [2]) [110] [3]

theorem dlookup_renumber (m : List (Bytes × Nat)) (k : Nat) (c : Bytes) :
    dlookup (m.map (fun p => if p.2 > k then (p.1, p.2 - 1) else p)) c =
      (dlookup m c).map (fun n => if n > k then n - 1 else n) := by
  induction m with
  | nil => simp [dlookup]
  | cons p rest ih =>
    obtain ⟨a, b⟩ := p
    simp only [List.map_cons]
    by_cases hgt : b > k
    · rw [if_pos hgt]
      by_cases hp : a = c <;> simp [dlookup, hp, ih, hgt]
    · rw [if_neg hgt]
      by_cases hp : a = c <;> simp [dlookup, hp, ih, hgt]

/-- The sequence map after `remove_claim_for_name` pops sequence `k`. -/
def renumbered (m : List (Bytes × Nat)) (c : Bytes) (k : Nat) : List (Bytes × Nat) :=
  (derase m c).map (fun p => if p.2 > k then (p.1, p.2 - 1) else p)

theorem get_claims_for_name_dinsert (s : State) (name : Bytes) (m : List (Bytes × Nat)) :
    get_claims_for_name
      { s with claims_for_name_cache := dinsert s.claims_for_name_cache name m } name = m := by
  unfold get_claims_for_name
  simp [dlookup_dinsert_self]

/-- C3: removing a claim with sequence `k` from a name's index
decrements by one the sequence of every remaining entry greater than `k`
and leaves the others unchanged (the removed claim disappears); and the
literal seed scenario: after putting `[1]`, `[2]`, `[3]` under `[110]`
and removing `[2]`, the name reads the map `[1] to 1, [3] to 2`. -/
theorem claim3_remove_renumbers :
    (∀ (s : State) (name c : Bytes) (k : Nat),
      ((get_claims_for_name s name).map Prod.fst).Nodup →
      dlookup (get_claims_for_name s name) c = some k →
      ∃ s', remove_claim_for_name s name c = some s' ∧
        dlookup (get_claims_for_name s' name) c = none ∧
        ∀ (c' : Bytes) (k' : Nat), c' ≠ c →
          dlookup (get_claims_for_name s name) c' = some k' →
          dlookup (get_claims_for_name s' name) c' =
            some (if k < k' then k' - 1 else k')) ∧
    (remove_claim_for_name s3 [110] [2]).map
      (fun s' => get_claims_for_name s' [110]) = some [([1], 1), ([3], 2)] := by
  constructor
  · intro s name c k hnd hk
    have hrm : remove_claim_for_name s name c =
        some { s with claims_for_name_cache := dinsert s.claims_for_name_cache name (renumbered (get_claims_for_name s name) c k) } := by
      simp only [remove_claim_for_name, hk, renumbered]
    refine ⟨_, hrm, ?_, ?_⟩
    · rw [get_claims_for_name_dinsert]
      unfold renumbered
      rw [dlookup_renumber, dlookup_derase_self _ _ hnd]
      rfl
    · intro c' k' hne hk'
      rw [get_claims_for_name_dinsert]
      unfold renumbered
      rw [dlookup_renumber, dlookup_derase_ne _ _ _ hne, hk']
      rfl
  · decide

theorem claim3_witness :
    (remove_claim_for_name s3 [110] [2]).map
      (fun s' => dlookup (get_claims_for_name s' [110]) [3]) = some (some 2) := by
  obtain ⟨s', hs, -, hall⟩ :=
    claim3_remove_renumbers.1 s3 [110] [2] 2 (by decide) (by decide)
  rw [hs, Option.map_some']
  rw [hall [3] 3 (by decide) (by decide)]
  decide

/-- A state with a staged deletion sentinel for outpoint `([1], 0)` in
the outpoint cache while the outpoint store still maps it to claim
`[7]`. -/
def tombstoneState : State :=
  { emptyState with
    outpoint_to_claim_id_cache := [([1] ++ pack32 0, none)],
    outpoint_to_claim_id_db := [([1] ++ pack32 0, [7])] }

/-- C1 counterexample: the deletion sentinel for outpoint `([1], 0)` is
staged in the outpoint cache, yet `get_claim_id_from_outpoint` does not
return the staged value (the deletion) — it falls through to the
underlying store and returns the stored claim id `[7]`.  The claimed
read contract (staged mutations, including the sentinel, shadow the
store) is violated by the `cache.get(key) or db.get(key)` read path. -/
theorem claim1_counterexample :
    dlookup tombstoneState.outpoint_to_claim_id_cache ([1] ++ pack32 0) = some none ∧
    get_claim_id_from_outpoint tombstoneState [1] 0 = some [7] := by
  decide

/-- C1 (amended): staged mutations shadow the store for the
`claims_for_name` and `claims_signed_by_cert` caches (membership-test
reads, sentinel included); for the `claim` and `outpoint_to_claim_id`
caches only a truthy staged value shadows the store — a staged deletion
sentinel is indistinguishable from absence under `cache.get(k) or
db.get(k)` and the read falls through to the underlying store; a key
absent from the cache always consults the store. -/
theorem claim1_read_semantics :
    (∀ (s : State) (name : Bytes) m, dlookup s.claims_for_name_cache name = some m →
      get_claims_for_name s name = m) ∧
    (∀ (s : State) (cert_id : Bytes) l,
      dlookup s.claims_signed_by_cert_cache cert_id = some l →
      get_signed_claim_ids_by_cert_id s cert_id = l) ∧
    (∀ (s : State) (tx_hash : Bytes) (tx_idx : Nat) (v : Bytes), v ≠ [] →
      dlookup s.outpoint_to_claim_id_cache (tx_hash ++ pack32 tx_idx) = some (some v) →
      get_claim_id_from_outpoint s tx_hash tx_idx = some v) ∧
    (∀ (s : State) (tx_hash : Bytes) (tx_idx : Nat),
      dlookup s.outpoint_to_claim_id_cache (tx_hash ++ pack32 tx_idx) = some none →
      get_claim_id_from_outpoint s tx_hash tx_idx =
        dlookup s.outpoint_to_claim_id_db (tx_hash ++ pack32 tx_idx)) ∧
    (∀ (s : State) (tx_hash : Bytes) (tx_idx : Nat),
      dlookup s.outpoint_to_claim_id_cache (tx_hash ++ pack32 tx_idx) = none →
      get_claim_id_from_outpoint s tx_hash tx_idx =
        dlookup s.outpoint_to_claim_id_db (tx_hash ++ pack32 tx_idx)) ∧
    (∀ (s : State) (claim_id : Bytes) (v : Bytes), v ≠ [] →
      dlookup s.claim_cache claim_id = some (some v) →
      get_claim_info s claim_id = ClaimInfo.from_serialized v) ∧
    (∀ (s : State) (claim_id : Bytes),
      dlookup s.claim_cache claim_id = some none →
      get_claim_info s claim_id =
        (match dlookup s.claims_db claim_id with
         | some ser => if ser = [] then none else ClaimInfo.from_serialized ser
         | none => none)) := by
  refine ⟨?_, ?_, ?_, ?_, ?_, ?_, ?_⟩
  · intro s name m h
    unfold get_claims_for_name
    rw [h]
  · intro s cert_id l h
    unfold get_signed_claim_ids_by_cert_id
    rw [h]
  · intro s tx_hash tx_idx v hv h
    simp only [get_claim_id_from_outpoint, pyGetD, bytesOr]
    rw [h]
    simp [hv]
  · intro s tx_hash tx_idx h
    simp only [get_claim_id_from_outpoint, pyGetD, bytesOr]
    rw [h]
    rfl
  · intro s tx_hash tx_idx h
    simp only [get_claim_id_from_outpoint, pyGetD, bytesOr]
    rw [h]
    rfl
  · intro s claim_id v hv h
    simp only [get_claim_info, pyGetD, bytesOr]
    rw [h]
    simp [hv]
  · intro s claim_id h
    simp only [get_claim_info, pyGetD, bytesOr]
    rw [h]
    rfl

def nmState : State := { emptyState with claims_for_name_cache := [([2], [([3], 1)])] }

def sigState : State := { emptyState with claims_signed_by_cert_cache := [([4], [[5]])] }

def opState : State :=
  { emptyState with outpoint_to_claim_id_cache := [([1] ++ pack32 0, some [7])] }

def ciVal : ClaimInfo := ⟨[110], [118], [3], 0, 10, [9], 1, none⟩

def ciState : State := { emptyState with claim_cache := [([6], some ciVal.serialized)] }

def ciTombState : State :=
  { emptyState with claim_cache := [([6], none)], claims_db := [([6], ciVal.serialized)] }

theorem claim1_witness :
    get_claims_for_name nmState [2] = [([3], 1)] ∧
    get_signed_claim_ids_by_cert_id sigState [4] = [[5]] ∧
    get_claim_id_from_outpoint opState [1] 0 = some [7] ∧
    get_claim_id_from_outpoint tombstoneState [1] 0 =
      dlookup tombstoneState.outpoint_to_claim_id_db ([1] ++ pack32 0) ∧
    get_claim_id_from_outpoint emptyState [1] 0 =
      dlookup emptyState.outpoint_to_claim_id_db ([1] ++ pack32 0) ∧
    get_claim_info ciState [6] = ClaimInfo.from_serialized ciVal.serialized ∧
    get_claim_info ciTombState [6] =
      (match dlookup ciTombState.claims_db [6] with
       | some ser => if ser = [] then none else ClaimInfo.from_serialized ser
       | none => none) :=
  ⟨claim1_read_semantics.1 nmState [2] _ rfl,
   claim1_read_semantics.2.1 sigState [4] _ rfl,
   claim1_read_semantics.2.2.1 opState [1] 0 [7] (by decide) rfl,
   claim1_read_semantics.2.2.2.1 tombstoneState [1] 0 rfl,
   claim1_read_semantics.2.2.2.2.1 emptyState [1] 0 rfl,
   claim1_read_semantics.2.2.2.2.2.1 ciState [6] ciVal.serialized
     (serialized_ne_nil ciVal) rfl,
   claim1_read_semantics.2.2.2.2.2.2 ciTombState [6] rfl⟩

/-- C10: with signature validation enabled, a claim whose value carries
a certificate reference whose signer certificate has no stored
`ClaimInfo` is given a null `cert_id` — `_checksig` falls off the end of
its `if cert_claim:` block and returns `None`, yet the claim record is
still built with `cert_id = None` (the reference is silently dropped,
not kept or deferred). -/
theorem claim10_missing_cert_claim_nulls_cert (env : Env) (s : State) (output : TxOutput)
    (txid : Bytes) (nout height : Nat) (name value cid : Bytes)
    (hout : output.claim = .nameClaim name value)
    (htx : txid ≠ []) (haddr : env.address_from_script output.pk_script ≠ [])
    (hval : env.should_validate_signatures = true)
    (hex : env.extract_cert_id value = some cid)
    (hmiss : get_claim_info s cid = none) :
    checksig env s name value (env.address_from_script output.pk_script) = none ∧
    claim_info_from_output env s output txid nout height =
      some ⟨name, value, txid, nout, output.value,
            env.address_from_script output.pk_script, height, none⟩ := by
  have hcs : ∀ address : Bytes, checksig env s name value address = none := by
    intro address
    unfold checksig
    cases hp : env.parse_uri_ok name with
    | false => simp [hp]
    | true =>
      rw [hex]
      by_cases hnil : cid = []
      · simp [hp, hnil]
      · simp [hp, hnil, hval, hmiss]
  refine ⟨hcs _, ?_⟩
  simp only [claim_info_from_output, hout]
  rw [if_neg (by
    push_neg
    exact ⟨htx, haddr⟩)]
  rw [hcs]

theorem claim10_witness :
    checksig envV emptyState [110] [118] (envV.address_from_script []) = none ∧
    claim_info_from_output envV emptyState ⟨20, [], .nameClaim [110] [118]⟩ [3] 0 4 =
      some ⟨[110], [118], [3], 0, 20, envV.address_from_script [], 4, none⟩ :=
  claim10_missing_cert_claim_nulls_cert envV emptyState ⟨20, [], .nameClaim [110] [118]⟩
    [3] 0 4 [110] [118] [8] rfl (by decide) (by decide) rfl rfl rfl

/-- C2: evaluation of the advance engine at a `ClaimSupport` output.
The claim (and spec section 4.4 step 4) says block advance appends the
support to the name-keyed index and points the outpoint-keyed index at
`(name, claim_id)`; but the source's `advance_support`
(block_processor.py:246) is a `pass` stub behind a TODO comment, no
supports store is opened in `open_dbs` or flushed in `flush_claims`,
and the repository's own tests call a `put_support` / support query
surface that block_processor.py lacks.  The dispatch of a support
output therefore returns the state, the undo list and the update-input
set unchanged: block advance indexes no supports at all. -/
theorem claim2_support_advance_is_noop :
    ∀ (env : Env) (s : State) (undo : List UndoRecord)
      (update_inputs tx_inputs : List TxInput) (txid : Bytes) (index : Nat)
      (amount : Nat) (pk name claim_id : Bytes) (height : Nat),
      advance_output env s undo update_inputs tx_inputs txid index
        ⟨amount, pk, .claimSupport name claim_id⟩ height =
        some (s, undo, update_inputs) :=
  fun _ _ _ _ _ _ _ _ _ _ _ _ => rfl

theorem get_claim_info_put_claim_info (s : State) (cid : Bytes) (ci : ClaimInfo) :
    get_claim_info (put_claim_info s cid ci) cid = some ci := by
  unfold get_claim_info put_claim_info pyGetD bytesOr
  simp [dlookup_dinsert_self, serialized_ne_nil ci, from_serialized_serialized]

/-- C6: a payload error — invalid URI name, unparseable value blob, or
failed signature validation (including an undecodable certificate) — is
recovered locally inside `_checksig`: the claim record is still built,
the name-claim advance still succeeds and indexes it (emitting its undo
record), but its `cert_id` is null. -/
theorem claim6_payload_errors_recovered (env : Env) (s : State) (output : TxOutput)
    (txid : Bytes) (nout height : Nat) (name value : Bytes)
    (hout : output.claim = .nameClaim name value)
    (htx : txid ≠ []) (haddr : env.address_from_script output.pk_script ≠ [])
    (herr :
      env.parse_uri_ok name = false ∨
      env.extract_cert_id value = none ∨
      (∃ cid cert_claim, env.extract_cert_id value = some cid ∧ cid ≠ [] ∧
        env.should_validate_signatures = true ∧
        get_claim_info s cid = some cert_claim ∧
        (env.smart_decode_ok cert_claim.value = false ∨
         env.smart_decode_ok value = false ∨
         env.validate_sig (env.address_from_script output.pk_script)
           cert_claim.value value = false))) :
    checksig env s name value (env.address_from_script output.pk_script) = none ∧
    claim_info_from_output env s output txid nout height =
      some ⟨name, value, txid, nout, output.value,
            env.address_from_script output.pk_script, height, none⟩ ∧
    (advance_claim_name_transaction env s output height txid nout).map Prod.snd =
      some (claim_id_hash env.sha256 env.ripemd160 txid nout, none) ∧
    (advance_claim_name_transaction env s output height txid nout).map
        (fun p => get_claim_info p.1 (claim_id_hash env.sha256 env.ripemd160 txid nout)) =
      some (some ⟨name, value, txid, nout, output.value,
        env.address_from_script output.pk_script, height, none⟩) := by
  have hcs : checksig env s name value (env.address_from_script output.pk_script) = none := by
    rcases herr with ha | hb | ⟨cid, cert_claim, hex, hcid, hval, hgci, hbad⟩
    · unfold checksig
      simp [ha]
    · unfold checksig
      cases hp : env.parse_uri_ok name <;> simp [hp, hb]
    · unfold checksig
      cases hp : env.parse_uri_ok name
      · simp [hp]
      · rcases hbad with h1 | h1 | h1 <;> simp [hp, hex, hcid, hval, hgci, h1]
  have hbuild : claim_info_from_output env s output txid nout height =
      some ⟨name, value, txid, nout, output.value,
            env.address_from_script output.pk_script, height, none⟩ := by
    simp only [claim_info_from_output, hout]
    rw [if_neg (by
      push_neg
      exact ⟨htx, haddr⟩)]
    rw [hcs]
  have hadv : advance_claim_name_transaction env s output height txid nout =
      some (put_claim_id_for_outpoint
        (put_claim_for_name
          (put_claim_info s (claim_id_hash env.sha256 env.ripemd160 txid nout)
            ⟨name, value, txid, nout, output.value,
             env.address_from_script output.pk_script, height, none⟩)
          name (claim_id_hash env.sha256 env.ripemd160 txid nout))
        txid nout (some (claim_id_hash env.sha256 env.ripemd160 txid nout)),
        (claim_id_hash env.sha256 env.ripemd160 txid nout, none)) := by
    unfold advance_claim_name_transaction
    rw [hbuild]
  refine ⟨hcs, hbuild, ?_, ?_⟩
  · rw [hadv]
    rfl
  · rw [hadv, Option.map_some']
    exact congrArg some (get_claim_info_put_claim_info s _ _)

theorem claim6_witness :
    checksig envT emptyState [110] [118]
      (envT.address_from_script ([] : Bytes)) = none ∧
    claim_info_from_output envT emptyState ⟨20, [], .nameClaim [110] [118]⟩ [3] 0 4 =
      some ⟨[110], [118], [3], 0, 20, envT.address_from_script ([] : Bytes), 4, none⟩ ∧
    (advance_claim_name_transaction envT emptyState
        ⟨20, [], .nameClaim [110] [118]⟩ 4 [3] 0).map Prod.snd =
      some (claim_id_hash envT.sha256 envT.ripemd160 [3] 0, none) ∧
    (advance_claim_name_transaction envT emptyState
        ⟨20, [], .nameClaim [110] [118]⟩ 4 [3] 0).map
        (fun p => get_claim_info p.1 (claim_id_hash envT.sha256 envT.ripemd160 [3] 0)) =
      some (some ⟨[110], [118], [3], 0, 20,
        envT.address_from_script ([] : Bytes), 4, none⟩) :=
  claim6_payload_errors_recovered envT emptyState ⟨20, [], .nameClaim [110] [118]⟩
    [3] 0 4 [110] [118] rfl (by decide) (by decide) (Or.inr (Or.inl rfl))

/-- `env` with its two hash oracles replaced. -/
def withHashOracles (env : Env) (f g : Bytes → Bytes) : Env :=
  ⟨env.should_validate_signatures, env.parse_uri_ok, env.extract_cert_id,
   env.smart_decode_ok, env.validate_sig, env.address_from_script, f, g⟩

/-- C8: the claim-id derivation is the pure function
RIPEMD160(SHA256(txid ++ u32_be(vout))); a first-time name claim derives
its id with it, while a claim update never invokes the hashes (its
result is unchanged under any replacement of the hash oracles) and
instead reuses the claim id carried inside the update output. -/
theorem claim8_claim_id_derivation :
    (∀ (sha256 ripemd160 : Bytes → Bytes) (txid : Bytes) (n : Nat),
      claim_id_hash sha256 ripemd160 txid n = ripemd160 (sha256 (txid ++ pack32 n))) ∧
    (∀ (env : Env) (s : State) (output : TxOutput) (height : Nat) (txid : Bytes)
        (nout : Nat) (s' : State) (u : UndoRecord),
      advance_claim_name_transaction env s output height txid nout = some (s', u) →
      u.1 = claim_id_hash env.sha256 env.ripemd160 txid nout) ∧
    (∀ (env : Env) (f g : Bytes → Bytes) (s : State) (output : TxOutput) (height : Nat)
        (txid : Bytes) (nout : Nat),
      advance_update_claim (withHashOracles env f g) s output height txid nout =
        advance_update_claim env s output height txid nout) ∧
    (∀ (env : Env) (s : State) (output : TxOutput) (height : Nat) (txid : Bytes)
        (nout : Nat) (name value claim_id : Bytes) (s' : State) (u : UndoRecord),
      output.claim = .claimUpdate name value claim_id →
      advance_update_claim env s output height txid nout = some (s', u) →
      u.1 = claim_id) := by
  refine ⟨fun _ _ _ _ => rfl, ?_, fun _ _ _ _ _ _ _ _ => rfl, ?_⟩
  · intro env s output height txid nout s' u h
    unfold advance_claim_name_transaction at h
    cases hb : claim_info_from_output env s output txid nout height with
    | none => rw [hb] at h; exact absurd h (by simp)
    | some ci =>
      rw [hb] at h
      simp only [Option.some.injEq, Prod.mk.injEq] at h
      obtain ⟨-, hu⟩ := h
      rw [← hu]
  · intro env s output height txid nout name value claim_id s' u hout h
    unfold advance_update_claim at h
    simp only [hout] at h
    repeat' split at h
    all_goals
      try (simp only [Option.some.injEq, Prod.mk.injEq] at h
           obtain ⟨-, hu⟩ := h
           rw [← hu])
    all_goals simp at h

theorem claim8_witness :
    (advance_claim_name_transaction envT emptyState ⟨20, [], .nameClaim [110] [118]⟩
        4 [3] 0).map (fun p => p.2.1) =
      some (claim_id_hash envT.sha256 envT.ripemd160 [3] 0) ∧
    (advance_update_claim envT s9 output9 2 [3] 1).map (fun p => p.2.1) = some [5] := by
  constructor
  · obtain ⟨⟨s', u⟩, hp⟩ : ∃ p, advance_claim_name_transaction envT emptyState
        ⟨20, [], .nameClaim [110] [118]⟩ 4 [3] 0 = some p := ⟨_, rfl⟩
    rw [hp, Option.map_some']
    rw [claim8_claim_id_derivation.2.1 envT emptyState ⟨20, [], .nameClaim [110] [118]⟩
      4 [3] 0 s' u hp]
  · obtain ⟨⟨s', u⟩, hp⟩ : ∃ p, advance_update_claim envT s9 output9 2 [3] 1 = some p :=
      ⟨_, rfl⟩
    rw [hp, Option.map_some']
    rw [claim8_claim_id_derivation.2.2.2 envT s9 output9 2 [3] 1 [110] [118] [5] s' u
      rfl hp]
